import Mathlib

/-!
Verification development for the wk-data scraping pipeline.

The repository contains three structurally parallel scrapers
(`src/scrapers/kanji.py`, `src/radicals_scraper.py`,
`src/vocabulary_scraper_clean.py`).  Each pairs a set of pure field
extractors over a parsed HTML document with a level-checkpointed run loop.
This file gives a shallow embedding of the data model, the field
extractors and the per-level driver step relations, translated directly
from the Python source, and proves the specification claims against them.

Modelling conventions:
* Python exceptions become `Except ScrapeError` values; an uncaught
  exception in the driver loop becomes a `halted` flag on the driver
  state (the kanji driver calls `sys.exit(1)` in its `except` clause,
  the radicals and vocabulary drivers re-raise).
* The network boundary (`fetch_page`) is an oracle parameter
  `String → Except ScrapeError Page`; everything downstream of the
  parse is concrete.
* Parsed HTML documents are modelled by exactly the fields the
  extractors inspect: heading texts, paragraph inner-HTML strings,
  ancestor-section presence and CSS class lists.
* Python string operations are implemented over `List Char` so that all
  definitions reduce in the kernel: `x in s` is `containsSub`,
  `str.strip` is `strTrim` (ASCII whitespace), `str.lower` is
  `strLower` (ASCII case folding — all comparisons in the source
  compare against ASCII literals), `str.split(",")` is `splitOnCh`,
  `str.replace` of a single character is `replaceAllCh`, and
  `sep.join` is `strJoin`.
-/

/-- Helper for `occursIn`: the pattern is a leading segment of the text. -/
def leadsWith : List Char → List Char → Bool
  | [], _ => true
  | _ :: _, [] => false
  | a :: as, b :: bs => a == b && leadsWith as bs

/-- The pattern occurs as a contiguous segment of the text. -/
def occursIn (pat : List Char) : List Char → Bool
  | [] => leadsWith pat []
  | c :: cs => leadsWith pat (c :: cs) || occursIn pat cs

/-- Python substring test `pat in s`. -/
def containsSub (s pat : String) : Bool :=
  occursIn pat.data s.data

/-- ASCII whitespace, as stripped by Python `str.strip()` on the inputs
this pipeline sees. -/
def isSpaceCh (c : Char) : Bool :=
  c == ' ' || c == '\t' || c == '\n' || c == '\r'

/-- Drop leading and trailing whitespace from a character list. -/
def trimCh (cs : List Char) : List Char :=
  ((cs.dropWhile isSpaceCh).reverse.dropWhile isSpaceCh).reverse

/-- Python `s.strip()`. -/
def strTrim (s : String) : String := ⟨trimCh s.data⟩

/-- ASCII lower-casing of one character. -/
def lowerCh (c : Char) : Char :=
  if 'A' ≤ c ∧ c ≤ 'Z' then Char.ofNat (c.toNat + 32) else c

/-- Python `s.lower()` (ASCII fragment). -/
def strLower (s : String) : String := ⟨s.data.map lowerCh⟩

/-- Python `s.split(sep)` for a one-character separator. -/
def splitOnCh (sep : Char) : List Char → List (List Char)
  | [] => [[]]
  | c :: rest =>
    let r := splitOnCh sep rest
    if c == sep then [] :: r
    else
      match r with
      | [] => [[c]]
      | h :: t => (c :: h) :: t

/-- Python `s.replace(a, b)` for one-character `a` and `b`. -/
def replaceAllCh (a b : Char) (cs : List Char) : List Char :=
  cs.map (fun c => if c == a then b else c)

/-- Helper for `strJoin`. -/
def joinWith (sep : List Char) : List (List Char) → List Char
  | [] => []
  | [x] => x
  | x :: xs => x ++ sep ++ joinWith sep xs

/-- Python `sep.join(xs)`. -/
def strJoin (sep : String) (xs : List String) : String :=
  ⟨joinWith sep.data (xs.map String.data)⟩

/-- Errors of the pipeline (Python exception classes that the scrapers
raise or let propagate). -/
inductive ScrapeError where
  /-- `requests.RequestException` from `fetch_page` (transport or HTTP error). -/
  | fetchError (url : String)
  /-- `ValueError("No mnemonic found on this radical page")` raised by
  `RadicalsScraper.extract_mnemonic`. -/
  | missingRequiredContent (what : String)
  /-- `ValueError` raised by `process_level` for a level absent from the
  input data (kanji and vocabulary scrapers). -/
  | levelNotFound (level : Nat)
  /-- `OSError` escaping `WaniKaniScraper._load_checkpoint`, whose
  `except` tuple names only `json.JSONDecodeError` and `KeyError`. -/
  | loadCheckpointIOError
  /-- `AttributeError` escaping `WaniKaniScraper._load_checkpoint` when
  the checkpoint file holds valid JSON that is not an object. -/
  | loadCheckpointTypeError
deriving DecidableEq

/-- Whether an `Except` value is a success. -/
def exceptOk : Except ScrapeError α → Bool
  | .ok _ => true
  | .error _ => false

/-- One entry of the level→items input index:
`{character, url, meaning, type}`. -/
structure Item where
  character : String
  url : String
  meaning : String
  type : String
deriving DecidableEq

/-! ### Kanji field extractors (src/scrapers/kanji.py) -/

/-- The readings-string parser inside `WaniKaniScraper.extract_readings`
(kanji.py lines 147-155): an overall empty or literal `None` text yields
nothing; otherwise the full-width comma is normalized to the standard
comma, the text is split on commas, each part is stripped, and empty
parts and the case-insensitive literal `None` are dropped. -/
def parseReadingItems (t : String) : List String :=
  if t ≠ "" ∧ strLower t ≠ "none" then
    ((splitOnCh ',' (replaceAllCh '、' ',' t.data)).map (fun cs => strTrim ⟨cs⟩)).filter
      (fun r => r != "" && strLower r != "none")
  else []

/-- The three reading categories of a kanji. -/
inductive ReadingKind where
  | onyomi
  | kunyomi
  | nanori
deriving DecidableEq

/-- The readings component of a kanji record (a Python dict keyed by the
three reading-category names). -/
structure Readings where
  onyomi : List String
  kunyomi : List String
  nanori : List String
deriving DecidableEq

/-- One `div.subject-readings__reading` inside the Readings section: the
optional title-element text and the optional items-element text. -/
structure ReadingDiv where
  titleText : Option String
  itemsText : Option String
deriving DecidableEq

/-- Title classification in `extract_readings` (kanji.py lines 128-136):
substring tests on the stripped title text, in source order. -/
def classifyReadingTitle (t : String) : Option ReadingKind :=
  if containsSub t "On" && containsSub t "yomi" then some .onyomi
  else if containsSub t "Kun" && containsSub t "yomi" then some .kunyomi
  else if containsSub t "Nanori" then some .nanori
  else none

/-- Python `readings[readings_type].extend(readings_list)`. -/
def addReadings (rs : Readings) (k : ReadingKind) (xs : List String) : Readings :=
  match k with
  | .onyomi => { rs with onyomi := rs.onyomi ++ xs }
  | .kunyomi => { rs with kunyomi := rs.kunyomi ++ xs }
  | .nanori => { rs with nanori := rs.nanori ++ xs }

/-- Body of the loop over `reading_divs` in `extract_readings` (kanji.py
lines 118-155): skip a div without a title element, classify the
stripped title, skip an unknown title or a missing items element, parse
the stripped items text and extend the matching category when the parse
is non-empty. -/
def readingDivStep (rs : Readings) (d : ReadingDiv) : Readings :=
  match d.titleText with
  | none => rs
  | some title =>
    match classifyReadingTitle (strTrim title) with
    | none => rs
    | some k =>
      match d.itemsText with
      | none => rs
      | some itxt =>
        let parsed := parseReadingItems (strTrim itxt)
        if parsed ≠ [] then addReadings rs k parsed else rs

/-- `WaniKaniScraper.extract_readings` (kanji.py lines 98-157): `none`
models a page with no Readings section (all categories empty); otherwise
fold the per-div loop body over the reading divs.  The code after the
first `return readings` (kanji.py lines 159-231) is unreachable and not
modelled. -/
def extractReadings (sec : Option (List ReadingDiv)) : Readings :=
  match sec with
  | none => ⟨[], [], []⟩
  | some divs => divs.foldl readingDivStep ⟨[], [], []⟩

/-- One line of a radical-combination link text, as split on newlines
and stripped (kanji.py lines 248-253). -/
def radicalLineOk (line : String) : Bool :=
  line != "" && line.data.any (fun c => c.toNat < 128 && c.isAlpha)

/-- Body of the loop in `extract_radical_combination` (kanji.py lines
248-257): append each stripped English-looking line not already present. -/
def radicalLinkStep (acc : List String) (linkText : String) : List String :=
  ((splitOnCh '\n' linkText.data).map (fun cs => strTrim ⟨cs⟩)).foldl
    (fun acc line =>
      if radicalLineOk line && !acc.contains line then acc ++ [line] else acc)
    acc

/-- `WaniKaniScraper.extract_radical_combination` (kanji.py lines
233-259): `none` models a page with no Radical Combination section. -/
def extractRadicalCombination (sec : Option (List String)) : List String :=
  match sec with
  | none => []
  | some links => links.foldl radicalLinkStep []

/-- The meaning/reading mnemonic pair of a kanji record. -/
structure Mnemonics where
  meaning : String
  reading : String
deriving DecidableEq

/-- One `h3.subject-section__subtitle` heading together with the
surrounding structure inspected by `extract_mnemonics`: whether an
ancestor `section.subject-section__subsection` exists, the inner-HTML
strings of its main-text and hint-text paragraphs, and the class list of
the ancestor `section.subject-section` of that subsection (`none` when
no such ancestor exists). -/
structure MnBlock where
  subtitleText : String
  hasSubsection : Bool
  sectionTexts : List String
  hintTexts : List String
  parentSectionClasses : Option (List String)
deriving DecidableEq

/-- The joined mnemonic HTML of one block: stripped main-text paragraphs
followed by stripped hint paragraphs, joined on a blank line (kanji.py
lines 276-288). -/
def mnBlockHtml (b : MnBlock) : String :=
  strJoin "\n\n" ((b.sectionTexts ++ b.hintTexts).map strTrim)

/-- Body of the heading loop of `WaniKaniScraper.extract_mnemonics`
(kanji.py lines 266-307): skip headings without `Mnemonic` in their
stripped text and headings without an enclosing subsection; otherwise
store the joined HTML in the `reading` slot when the ancestor section
carries the reading marker class, in the `meaning` slot when an ancestor
section exists without that marker, and in neither slot when no ancestor
section exists at all. -/
def mnBlockStep (acc : Mnemonics) (b : MnBlock) : Mnemonics :=
  if containsSub (strTrim b.subtitleText) "Mnemonic" then
    if b.hasSubsection then
      match b.parentSectionClasses with
      | none => acc
      | some classes =>
        if classes.contains "subject-section--reading" then
          { acc with reading := mnBlockHtml b }
        else
          { acc with meaning := mnBlockHtml b }
    else acc
  else acc

/-- `WaniKaniScraper.extract_mnemonics` (kanji.py lines 261-309). -/
def extractMnemonics (blocks : List MnBlock) : Mnemonics :=
  blocks.foldl mnBlockStep ⟨"", ""⟩

/-- A parsed kanji page, holding exactly what the three kanji field
extractors inspect. -/
structure KanjiPage where
  readingDivs : Option (List ReadingDiv)
  radicalLinks : Option (List String)
  mnemonicBlocks : List MnBlock
deriving DecidableEq

/-- The kanji output record (kanji.py lines 326-333). -/
structure KanjiRecord where
  character : String
  url : String
  meaning : String
  readings : Readings
  radicalCombination : List String
  mnemonics : Mnemonics
deriving DecidableEq

/-- `WaniKaniScraper.extract_kanji_data` (kanji.py lines 311-337): fetch
the page, run the three extractors, combine with input metadata.  Fetch
errors propagate. -/
def extractKanjiData (fetch : String → Except ScrapeError KanjiPage) (item : Item) :
    Except ScrapeError KanjiRecord :=
  match fetch item.url with
  | .error e => .error e
  | .ok page =>
    .ok { character := item.character, url := item.url, meaning := item.meaning,
          readings := extractReadings page.readingDivs,
          radicalCombination := extractRadicalCombination page.radicalLinks,
          mnemonics := extractMnemonics page.mnemonicBlocks }

/-! ### Radical field extractors (src/radicals_scraper.py) -/

/-- One `h3.subject-section__subtitle` heading of a radical page:
its text, and the inner-HTML strings of the `p.subject-section__text`
paragraphs of its ancestor `section.subject-section` (`none` when the
heading has no such ancestor). -/
structure RadMnBlock where
  subtitleText : String
  sectionTexts : Option (List String)
deriving DecidableEq

/-- The candidate mnemonic of one block: stripped paragraphs joined with
a single space, then stripped (radicals_scraper.py lines 124-135). -/
def radMnemonicText (ps : List String) : String :=
  strTrim (strJoin " " (ps.map strTrim))

/-- `RadicalsScraper.extract_mnemonic` (radicals_scraper.py lines
114-138): return the first non-empty joined mnemonic of a
`Mnemonic`-labelled heading with an enclosing section; raise
`ValueError` when none exists. -/
def extractMnemonic : List RadMnBlock → Except ScrapeError String
  | [] => .error (.missingRequiredContent "mnemonic")
  | b :: rest =>
    if containsSub b.subtitleText "Mnemonic" then
      match b.sectionTexts with
      | none => extractMnemonic rest
      | some ps =>
        if radMnemonicText ps ≠ "" then .ok (radMnemonicText ps)
        else extractMnemonic rest
    else extractMnemonic rest

/-- A parsed radical page: the mnemonic-candidate blocks and the optional
`src` attribute of a `wk-mnemonic-image` element. -/
structure RadicalPage where
  mnemonicBlocks : List RadMnBlock
  mnemonicImageSrc : Option String
deriving DecidableEq

/-- `RadicalsScraper.extract_mnemonic_image` (radicals_scraper.py lines
140-150): the stripped `src` attribute when present and non-empty,
otherwise the empty string. -/
def extractMnemonicImage (p : RadicalPage) : String :=
  match p.mnemonicImageSrc with
  | some src => if src ≠ "" then strTrim src else ""
  | none => ""

/-- The radical output record (radicals_scraper.py lines 166-173). -/
structure RadicalRecord where
  character : String
  url : String
  meaning : String
  mnemonic : String
  mnemonicImage : String
  type : String
deriving DecidableEq

/-- `RadicalsScraper.extract_radical_data` (radicals_scraper.py lines
152-177): fetch the page, extract the mandatory mnemonic and the
optional image, combine with input metadata.  Fetch errors and the
missing-mnemonic error propagate. -/
def extractRadicalData (fetch : String → Except ScrapeError RadicalPage) (item : Item) :
    Except ScrapeError RadicalRecord :=
  match fetch item.url with
  | .error e => .error e
  | .ok page =>
    match extractMnemonic page.mnemonicBlocks with
    | .error e => .error e
    | .ok mn =>
      .ok { character := item.character, url := item.url, meaning := item.meaning,
            mnemonic := mn, mnemonicImage := extractMnemonicImage page,
            type := item.type }

/-! ### Vocabulary explanation extractor (src/vocabulary_scraper_clean.py) -/

/-- One explanation heading of a vocabulary page: the `h3` text, whether
an ancestor `section.subject-section` exists, the inner-HTML strings of
that section's text paragraphs, and the text of the nearest preceding
`h2` heading (`none` when there is none). -/
structure ExplBlock where
  headingText : String
  hasSection : Bool
  texts : List String
  prevH2 : Option String
deriving DecidableEq

/-- The meaning/reading explanation pair of a vocabulary record. -/
structure Explanations where
  meaning : String
  reading : String
deriving DecidableEq

/-- The joined explanation of one block: stripped paragraphs joined with
a single space (vocabulary_scraper_clean.py lines 206-214). -/
def explBlockText (b : ExplBlock) : String :=
  strJoin " " (b.texts.map strTrim)

/-- Body of the heading loop of
`WaniKaniVocabularyScraper.extract_explanation_with_tags`
(vocabulary_scraper_clean.py lines 198-229): skip headings without
`Explanation` in their text and headings without an enclosing section;
when a preceding `h2` exists, classify by keywords of its stripped
lower-cased text (`meaning`/`word type` → meaning slot, else `reading`
→ reading slot, else store nowhere); when no preceding `h2` exists,
store in the meaning slot only if it is still empty. -/
def explStep (acc : Explanations) (b : ExplBlock) : Explanations :=
  if containsSub b.headingText "Explanation" then
    if b.hasSection then
      match b.prevH2 with
      | some h =>
        let context := strLower (strTrim h)
        if containsSub context "meaning" || containsSub context "word type" then
          { acc with meaning := explBlockText b }
        else if containsSub context "reading" then
          { acc with reading := explBlockText b }
        else acc
      | none =>
        if acc.meaning = "" then { acc with meaning := explBlockText b } else acc
    else acc
  else acc

/-- `WaniKaniVocabularyScraper.extract_explanation_with_tags`
(vocabulary_scraper_clean.py lines 193-231). -/
def extractExplanations (blocks : List ExplBlock) : Explanations :=
  blocks.foldl explStep ⟨"", ""⟩

/-! ### Checkpoint store -/

/-- The observable states of a checkpoint file, split by how the Python
loaders react to them: absent (the `exists()` check fails), invalid JSON
(`json.load` raises `json.JSONDecodeError`), an I/O read failure
(`open`/read raises `OSError`), valid JSON that is not an object
(`.get` raises `AttributeError`), or a parsed JSON object with an
optional `last_completed_level` value. -/
inductive CkptFile where
  | absent
  | invalidJSON
  | ioUnreadable
  | parsedNonDict
  | parsed (lastCompletedLevel : Option Nat)
deriving DecidableEq

/-- `WaniKaniScraper._load_checkpoint` (kanji.py lines 70-81): returns
`None` when the file is absent; the `try` block catches only
`json.JSONDecodeError` and `KeyError`, so invalid JSON degrades to
`None` while an I/O failure or a non-object JSON value raises. -/
def kanjiLoadCheckpoint : CkptFile → Except ScrapeError (Option Nat)
  | .absent => .ok none
  | .invalidJSON => .ok none
  | .ioUnreadable => .error .loadCheckpointIOError
  | .parsedNonDict => .error .loadCheckpointTypeError
  | .parsed v => .ok v

/-- `RadicalsScraper._load_checkpoint` (radicals_scraper.py lines
85-94): the `try` block catches `Exception`, so every failure mode
degrades to `None`. -/
def radicalsLoadCheckpoint : CkptFile → Option Nat
  | .absent => none
  | .invalidJSON => none
  | .ioUnreadable => none
  | .parsedNonDict => none
  | .parsed v => v

/-- `WaniKaniVocabularyScraper._load_checkpoint`
(vocabulary_scraper_clean.py lines 86-95): identical `except Exception`
structure to the radicals loader. -/
def vocabLoadCheckpoint : CkptFile → Option Nat :=
  radicalsLoadCheckpoint

/-- Resume logic of `WaniKaniScraper.run` (kanji.py lines 365-371):
override the configured start with `checkpoint + 1` when a checkpoint
value was loaded.  A load error propagates (the call is outside any
`try`). -/
def kanjiResolveStart (f : CkptFile) (configuredStart : Nat) :
    Except ScrapeError Nat :=
  match kanjiLoadCheckpoint f with
  | .error e => .error e
  | .ok (some c) => .ok (c + 1)
  | .ok none => .ok configuredStart

/-- Resume logic of `RadicalsScraper.run` (radicals_scraper.py lines
211-217). -/
def radicalsResolveStart (f : CkptFile) (configuredStart : Nat) : Nat :=
  match radicalsLoadCheckpoint f with
  | some c => c + 1
  | none => configuredStart

/-! ### Level processing -/

/-- Association-list lookup modelling Python `data[str(level)]` /
`str(level) in data`. -/
def lookupLevel : List (Nat × α) → Nat → Option α
  | [], _ => none
  | (k, v) :: rest, l => if k = l then some v else lookupLevel rest l

/-- Association-list update modelling Python `data[str(level)] = v`. -/
def insertLevel : List (Nat × α) → Nat → α → List (Nat × α)
  | [], l, v => [(l, v)]
  | (k, w) :: rest, l, v =>
    if k = l then (k, v) :: rest else (k, w) :: insertLevel rest l v

/-- The per-item loop shared by all three `process_level` methods:
append each successfully extracted record, and re-raise the first item
failure, discarding the partial list. -/
def processItems (ex : Item → Except ScrapeError R) :
    List Item → Except ScrapeError (List R)
  | [] => .ok []
  | i :: rest =>
    match ex i with
    | .error e => .error e
    | .ok r =>
      match processItems ex rest with
      | .error e => .error e
      | .ok rs => .ok (r :: rs)

/-- `WaniKaniScraper.process_level` (kanji.py lines 339-363): raise
`ValueError` for a level absent from the input data, else run the item
loop. -/
def kanjiProcessLevel (data : List (Nat × List Item))
    (ex : Item → Except ScrapeError R) (level : Nat) :
    Except ScrapeError (List R) :=
  match lookupLevel data level with
  | none => .error (.levelNotFound level)
  | some items => processItems ex items

/-- `RadicalsScraper.process_level` (radicals_scraper.py lines 179-209):
a level absent from the input data or with an empty item list is skipped
with an empty result, else run the item loop. -/
def radicalsProcessLevel (data : List (Nat × List Item))
    (ex : Item → Except ScrapeError R) (level : Nat) :
    Except ScrapeError (List R) :=
  match lookupLevel data level with
  | none => .ok []
  | some items =>
    if items.isEmpty then .ok [] else processItems ex items

/-- `WaniKaniVocabularyScraper.process_level`
(vocabulary_scraper_clean.py lines 309-335): same structure as the
kanji version. -/
def vocabProcessLevel (data : List (Nat × List Item))
    (ex : Item → Except ScrapeError R) (level : Nat) :
    Except ScrapeError (List R) :=
  match lookupLevel data level with
  | none => .error (.levelNotFound level)
  | some items => processItems ex items

/-! ### Driver step relations -/

/-- A persistence event of one driver iteration: a successful write of
the ResultsStore to the output file, or of the checkpoint for a level. -/
inductive WriteEvent where
  | writeResults
  | writeCheckpoint (level : Nat)
deriving DecidableEq

/-- The deterministic environment of a driver run: the input index, the
per-item extraction outcome (folding in the fetch oracle), and whether
the results / checkpoint file writes raise at a given level. -/
structure DriverEnv (R : Type) where
  data : List (Nat × List Item)
  ex : Item → Except ScrapeError R
  resultsSaveFails : Nat → Bool
  ckptSaveFails : Nat → Bool

/-- The driver state carried across level iterations: the in-memory
ResultsStore, the checkpoint-file content, the sequence of successful
persistence events, and whether the run has halted on an error. -/
structure DriverState (R : Type) where
  results : List (Nat × List R)
  checkpoint : Option Nat
  trace : List WriteEvent
  halted : Bool
deriving DecidableEq

/-- `RadicalsScraper._save_results` / `_save_checkpoint` and the
vocabulary equivalents wrap the write in `try/except` and only log a
failure: a failed write changes nothing and does not raise. -/
def trySaveResults (env : DriverEnv R) (st : DriverState R) (level : Nat) :
    DriverState R :=
  if env.resultsSaveFails level then st
  else { st with trace := st.trace ++ [WriteEvent.writeResults] }

/-- Checkpoint counterpart of `trySaveResults`: on success the
checkpoint file now holds the level and the event is recorded. -/
def trySaveCheckpoint (env : DriverEnv R) (st : DriverState R) (level : Nat) :
    DriverState R :=
  if env.ckptSaveFails level then st
  else { st with trace := st.trace ++ [WriteEvent.writeCheckpoint level],
                 checkpoint := some level }

/-- One iteration of the level loop of `WaniKaniScraper.run` (kanji.py
lines 383-398).  On a `process_level` failure the `except` clause logs
and calls `sys.exit(1)`.  `_save_results` and `_save_checkpoint`
(kanji.py lines 63-68 and 83-86) have no `try/except` of their own, so
a raising write is caught by the same clause and also exits. -/
def kanjiStep (env : DriverEnv R) (st : DriverState R) (level : Nat) :
    DriverState R :=
  if st.halted then st
  else
    match kanjiProcessLevel env.data env.ex level with
    | .error _ => { st with halted := true }
    | .ok rs =>
      let st1 := { st with results := insertLevel st.results level rs }
      if env.resultsSaveFails level then { st1 with halted := true }
      else
        let st2 := { st1 with trace := st1.trace ++ [WriteEvent.writeResults] }
        if env.ckptSaveFails level then { st2 with halted := true }
        else { st2 with trace := st2.trace ++ [WriteEvent.writeCheckpoint level],
                        checkpoint := some level }

/-- One iteration of the level loop of `RadicalsScraper.run`
(radicals_scraper.py lines 231-254).  A level with results stores them,
saves results, then saves the checkpoint; a level with an empty result
list only saves the checkpoint; a `process_level` failure re-raises and
ends the run. -/
def radicalsStep (env : DriverEnv R) (st : DriverState R) (level : Nat) :
    DriverState R :=
  if st.halted then st
  else
    match radicalsProcessLevel env.data env.ex level with
    | .error _ => { st with halted := true }
    | .ok rs =>
      if rs.isEmpty then trySaveCheckpoint env st level
      else
        let st1 := { st with results := insertLevel st.results level rs }
        trySaveCheckpoint env (trySaveResults env st1 level) level

/-- One iteration of the level loop of `WaniKaniVocabularyScraper.run`
(vocabulary_scraper_clean.py lines 357-375): results are stored
unconditionally, then results and checkpoint saves are attempted; a
`process_level` failure re-raises and ends the run. -/
def vocabStep (env : DriverEnv R) (st : DriverState R) (level : Nat) :
    DriverState R :=
  if st.halted then st
  else
    match vocabProcessLevel env.data env.ex level with
    | .error _ => { st with halted := true }
    | .ok rs =>
      let st1 := { st with results := insertLevel st.results level rs }
      trySaveCheckpoint env (trySaveResults env st1 level) level

/-- The kanji level loop over an explicit list of levels. -/
def kanjiRunFrom (env : DriverEnv R) (st : DriverState R)
    (levels : List Nat) : DriverState R :=
  levels.foldl (kanjiStep env) st

/-- The radicals level loop over an explicit list of levels. -/
def radicalsRunFrom (env : DriverEnv R) (st : DriverState R)
    (levels : List Nat) : DriverState R :=
  levels.foldl (radicalsStep env) st

/-- Python `range(start, end + 1)` over natural numbers. -/
def levelRange (startLevel endLevel : Nat) : List Nat :=
  (List.range (endLevel + 1 - startLevel)).map (fun i => startLevel + i)

/-- `RadicalsScraper.run` (radicals_scraper.py lines 211-254) without
the final checkpoint cleanup: resolve the start level from the
checkpoint file, then iterate the level loop. -/
def radicalsRun (env : DriverEnv R) (f : CkptFile) (st : DriverState R)
    (configuredStart endLevel : Nat) : DriverState R :=
  radicalsRunFrom env st (levelRange (radicalsResolveStart f configuredStart) endLevel)

/-- `WaniKaniScraper.run` (kanji.py lines 365-398) without the final
checkpoint cleanup: resolve the start level (a load error propagates),
then iterate the level loop. -/
def kanjiRun (env : DriverEnv R) (f : CkptFile) (st : DriverState R)
    (configuredStart endLevel : Nat) : Except ScrapeError (DriverState R) :=
  match kanjiResolveStart f configuredStart with
  | .error e => .error e
  | .ok s => .ok (kanjiRunFrom env st (levelRange s endLevel))

/-! ### Derived predicates -/

/-- A radical-page block yields no usable mnemonic: either its heading
lacks the `Mnemonic` label, or it has no enclosing section, or its
joined paragraph text strips to the empty string. -/
def blockNoMnemonic (b : RadMnBlock) : Bool :=
  !(containsSub b.subtitleText "Mnemonic") ||
    (match b.sectionTexts with
     | none => true
     | some ps => radMnemonicText ps == "")

/-- No block of the page yields a usable mnemonic. -/
def noRadMnemonic (blocks : List RadMnBlock) : Bool :=
  blocks.all blockNoMnemonic

/-! ### Concrete fixtures for witnesses and counterexamples -/

/-- Fixture: input data whose single level 1 has an empty item list,
all saves succeeding. -/
def envEmptyLevel : DriverEnv Nat :=
  { data := [(1, [])], ex := fun _ => .ok 0,
    resultsSaveFails := fun _ => false, ckptSaveFails := fun _ => false }

/-- Fixture: the initial driver state (empty store, no checkpoint). -/
def stEmptyN : DriverState Nat := ⟨[], none, [], false⟩

/-- Fixture: like `envEmptyLevel` but every results-file write raises. -/
def envSaveFail : DriverEnv Nat :=
  { data := [(1, [])], ex := fun _ => .ok 0,
    resultsSaveFails := fun _ => true, ckptSaveFails := fun _ => false }

/-- Fixture: like `envEmptyLevel` but every checkpoint-file write
raises. -/
def envCkptSaveFail : DriverEnv Nat :=
  { data := [(1, [])], ex := fun _ => .ok 0,
    resultsSaveFails := fun _ => false, ckptSaveFails := fun _ => true }

/-- Fixture: an item whose extraction succeeds. -/
def itemGoodFx : Item := ⟨"g", "ug", "", ""⟩

/-- Fixture: an item whose extraction fails with a fetch error. -/
def itemBadFx : Item := ⟨"b", "ub", "", ""⟩

/-- Fixture: level 1 holds a succeeding item followed by a failing one. -/
def envFailItem : DriverEnv Nat :=
  { data := [(1, [itemGoodFx, itemBadFx])],
    ex := fun i => if i.character = "b" then .error (.fetchError "ub") else .ok 0,
    resultsSaveFails := fun _ => false, ckptSaveFails := fun _ => false }

/-- Fixture: level 1 holds one succeeding item, all saves succeeding. -/
def envOneItem : DriverEnv Nat :=
  { data := [(1, [itemGoodFx])], ex := fun _ => .ok 0,
    resultsSaveFails := fun _ => false, ckptSaveFails := fun _ => false }

/-- Fixture: a radical input item. -/
def radItemFx : Item := ⟨"ground", "url-ground", "ground", "radical"⟩

/-- Fixture: a radical page whose only Mnemonic-labelled block has only
whitespace paragraph text, so no mnemonic is found. -/
def radPageNoMn : RadicalPage := ⟨[⟨"Mnemonic", some ["", "  "]⟩], none⟩

/-- Fixture: a fetch oracle returning `radPageNoMn` for every URL. -/
def radFetchNoMn : String → Except ScrapeError RadicalPage :=
  fun _ => .ok radPageNoMn

/-- Fixture: a kanji mnemonic block with non-empty content but no
ancestor `section.subject-section` (no classification signal at all). -/
def orphanMnBlock : MnBlock := ⟨"Meaning Mnemonic", true, ["lorem ipsum"], [], none⟩

/-- Fixture: a kanji mnemonic block whose ancestor section carries no
reading marker class. -/
def unmarkedMnBlock : MnBlock := ⟨"Meaning Mnemonic", true, ["lorem ipsum"], [], some []⟩

/-! ### Helper lemmas -/

/-- Updating one level key leaves lookups of a different key unchanged. -/
theorem lookupLevel_insertLevel_ne {α : Type} (rs : List (Nat × α)) (l L : Nat) (v : α)
    (h : l ≠ L) : lookupLevel (insertLevel rs l v) L = lookupLevel rs L := by
  induction rs with
  | nil => simp [insertLevel, lookupLevel, h]
  | cons p rest ih =>
    obtain ⟨k, w⟩ := p
    by_cases hk : k = l
    · subst hk
      simp [insertLevel, lookupLevel, h]
    · simp [insertLevel, lookupLevel, hk, ih]

/-- `insertLevel` preserves a predicate on stored values. -/
theorem insertLevel_forall {α : Type} (P : α → Prop) (rs : List (Nat × α)) (l : Nat)
    (v : α) (h : ∀ p ∈ rs, P p.2) (hv : P v) :
    ∀ p ∈ insertLevel rs l v, P p.2 := by
  induction rs with
  | nil => simpa [insertLevel] using hv
  | cons q rest ih =>
    obtain ⟨k, w⟩ := q
    by_cases hk : k = l
    · subst hk
      simp only [insertLevel, if_pos rfl]
      intro p hp
      rcases List.mem_cons.mp hp with h1 | h2
      · simpa [h1] using hv
      · exact h p (List.mem_cons_of_mem _ h2)
    · simp only [insertLevel, if_neg hk]
      intro p hp
      rcases List.mem_cons.mp hp with h1 | h2
      · exact h p (by simp [h1])
      · exact ih (fun q hq => h q (List.mem_cons_of_mem _ hq)) p h2

/-- The per-item loop fails with the first failing item's error when all
earlier items succeed, discarding the partial results. -/
theorem processItems_error {R : Type} (ex : Item → Except ScrapeError R)
    (good : List Item) (bad : Item) (rest : List Item) (e : ScrapeError)
    (hg : ∀ i ∈ good, exceptOk (ex i) = true) (hb : ex bad = .error e) :
    processItems ex (good ++ bad :: rest) = .error e := by
  induction good with
  | nil => simp [processItems, hb]
  | cons g gs ih =>
    have hgok : exceptOk (ex g) = true := hg g (by simp)
    cases hex : ex g with
    | error e2 => rw [hex] at hgok; simp [exceptOk] at hgok
    | ok r =>
      have hrec : processItems ex (gs ++ bad :: rest) = .error e :=
        ih (fun i hi => hg i (by simp [hi]))
      simp [processItems, hex, hrec]

/-- A halted driver state is frozen by the kanji step. -/
theorem kanjiStep_halted {R : Type} (env : DriverEnv R) (st : DriverState R) (l : Nat)
    (h : st.halted = true) : kanjiStep env st l = st := by
  simp [kanjiStep, h]

/-- A halted driver state is frozen by the whole kanji run. -/
theorem kanjiRunFrom_halted {R : Type} (env : DriverEnv R) (st : DriverState R)
    (levels : List Nat) (h : st.halted = true) : kanjiRunFrom env st levels = st := by
  induction levels with
  | nil => rfl
  | cons l ls ih =>
    show kanjiRunFrom env (kanjiStep env st l) ls = st
    rw [kanjiStep_halted env st l h]
    exact ih

/-- A kanji step on one level does not change the stored results of a
different level. -/
theorem kanjiStep_lookup_ne {R : Type} (env : DriverEnv R) (st : DriverState R)
    (l L : Nat) (h : l ≠ L) :
    lookupLevel (kanjiStep env st l).results L = lookupLevel st.results L := by
  by_cases hh : st.halted
  · rw [kanjiStep_halted env st l hh]
  · cases hp : kanjiProcessLevel env.data env.ex l with
    | error e => simp [kanjiStep, hh, hp]
    | ok rs =>
      by_cases h1 : env.resultsSaveFails l
      · simp [kanjiStep, hh, hp, h1, lookupLevel_insertLevel_ne st.results l L rs h]
      · by_cases h2 : env.ckptSaveFails l <;>
          simp [kanjiStep, hh, hp, h1, h2, lookupLevel_insertLevel_ne st.results l L rs h]

/-- A failing level processing halts the kanji driver with all state
other than the halt flag unchanged. -/
theorem kanjiStep_fail {R : Type} (env : DriverEnv R) (st : DriverState R) (L : Nat)
    (e : ScrapeError) (hh : st.halted = false)
    (hp : kanjiProcessLevel env.data env.ex L = .error e) :
    kanjiStep env st L = { st with halted := true } := by
  simp [kanjiStep, hh, hp]

/-- C1.  All-or-nothing level contract of the kanji driver
(kanji.py lines 339-363 and 383-398): when, in a run over levels
`pre ++ L :: post` with no prior entry for `L`, the processing of level
`L` fails at an item (after any number of earlier items succeeded), the
run halts and the ResultsStore holds no entry at all under `L` — in
particular not the partial list of previously extracted records, which
the driver discards. -/
theorem kanji_level_all_or_nothing {R : Type} (env : DriverEnv R) (st : DriverState R)
    (L : Nat) (pre post : List Nat) (items good : List Item) (bad : Item)
    (rest : List Item) (e : ScrapeError)
    (hL : lookupLevel env.data L = some items)
    (hsplit : items = good ++ bad :: rest)
    (hgood : ∀ i ∈ good, exceptOk (env.ex i) = true)
    (hbad : env.ex bad = .error e)
    (hnone : lookupLevel st.results L = none)
    (hpre : L ∉ pre) :
    (kanjiRunFrom env st (pre ++ L :: post)).halted = true ∧
    lookupLevel (kanjiRunFrom env st (pre ++ L :: post)).results L = none := by
  revert hnone hpre
  induction pre generalizing st with
  | nil =>
    intro hnone _
    by_cases hh : st.halted
    · have h1 : kanjiStep env st L = st := kanjiStep_halted env st L hh
      have h2 : kanjiRunFrom env st ([] ++ L :: post) = st := by
        show kanjiRunFrom env (kanjiStep env st L) post = st
        rw [h1]
        exact kanjiRunFrom_halted env st post hh
      rw [h2]
      exact ⟨hh, hnone⟩
    · have hh2 : st.halted = false := by simpa using hh
      have hperr : kanjiProcessLevel env.data env.ex L = .error e := by
        simp only [kanjiProcessLevel, hL]
        rw [hsplit]
        exact processItems_error env.ex good bad rest e hgood hbad
      have hstep : kanjiStep env st L = { st with halted := true } :=
        kanjiStep_fail env st L e hh2 hperr
      have h2 : kanjiRunFrom env st ([] ++ L :: post) = { st with halted := true } := by
        show kanjiRunFrom env (kanjiStep env st L) post = _
        rw [hstep]
        exact kanjiRunFrom_halted env _ post rfl
      rw [h2]
      exact ⟨rfl, hnone⟩
  | cons p ps ih =>
    intro hnone hpre
    have hp : p ≠ L := fun hEq => hpre (by simp [hEq])
    have hnone2 : lookupLevel (kanjiStep env st p).results L = none := by
      rw [kanjiStep_lookup_ne env st p L hp]
      exact hnone
    have hpre2 : L ∉ ps := fun hmem => hpre (List.mem_cons_of_mem _ hmem)
    exact ih (kanjiStep env st p) hnone2 hpre2

/-- Witness for C1 at a concrete two-item level whose second item fails. -/
theorem kanji_level_all_or_nothing_witness :
    (kanjiRunFrom envFailItem stEmptyN [1]).halted = true ∧
    lookupLevel (kanjiRunFrom envFailItem stEmptyN [1]).results 1 = none :=
  kanji_level_all_or_nothing envFailItem stEmptyN 1 [] [] [itemGoodFx, itemBadFx]
    [itemGoodFx] itemBadFx [] (.fetchError "ub") rfl rfl (by decide) rfl rfl
    (by decide)

/-- C2.  Resume check (kanji.py lines 365-371, radicals_scraper.py lines
211-217): when the checkpoint store yields a last-completed-level `c`,
the driver starts from `c + 1` regardless of the configured start; with
no checkpoint value it starts from the configured start.  For the
radicals driver the processed level list is exactly the range from
`c + 1`. -/
theorem checkpoint_resume_overrides_start {R : Type} (env : DriverEnv R)
    (st : DriverState R) (f : CkptFile) (c s s2 e : Nat) :
    (kanjiLoadCheckpoint f = .ok (some c) →
       kanjiResolveStart f s = .ok (c + 1) ∧
       kanjiResolveStart f s = kanjiResolveStart f s2) ∧
    (kanjiLoadCheckpoint f = .ok none → kanjiResolveStart f s = .ok s) ∧
    (radicalsLoadCheckpoint f = some c →
       radicalsResolveStart f s = c + 1 ∧
       radicalsResolveStart f s = radicalsResolveStart f s2 ∧
       radicalsRun env f st s e = radicalsRunFrom env st (levelRange (c + 1) e)) ∧
    (radicalsLoadCheckpoint f = none → radicalsResolveStart f s = s) := by
  refine ⟨fun h => ?_, fun h => ?_, fun h => ?_, fun h => ?_⟩
  · simp [kanjiResolveStart, h]
  · simp [kanjiResolveStart, h]
  · simp [radicalsResolveStart, radicalsRun, h]
  · simp [radicalsResolveStart, h]

/-- Witness for C2 at a checkpoint recording level 7 and configured
start 1: both drivers resume from level 8. -/
theorem checkpoint_resume_overrides_start_witness :
    kanjiResolveStart (CkptFile.parsed (some 7)) 1 = .ok 8 ∧
    radicalsResolveStart (CkptFile.parsed (some 7)) 1 = 8 :=
  ⟨((checkpoint_resume_overrides_start envEmptyLevel stEmptyN
      (CkptFile.parsed (some 7)) 7 1 1 1).1 rfl).1,
   ((checkpoint_resume_overrides_start envEmptyLevel stEmptyN
      (CkptFile.parsed (some 7)) 7 1 1 1).2.2.1 rfl).1⟩

/-- C3 counterexample.  The radicals driver completes a level with an
empty item list by writing the checkpoint for it while performing no
results write at all (radicals_scraper.py lines 247-250), so the claim
that results are always persisted before the checkpoint of a completed
level fails on this concrete step. -/
theorem results_before_checkpoint_counterexample :
    (radicalsStep envEmptyLevel stEmptyN 1).checkpoint = some 1 ∧
    (radicalsStep envEmptyLevel stEmptyN 1).trace = [WriteEvent.writeCheckpoint 1] ∧
    WriteEvent.writeResults ∉ (radicalsStep envEmptyLevel stEmptyN 1).trace := by
  refine ⟨rfl, rfl, ?_⟩
  decide

/-- C3 amended.  In every completed level step the results write
precedes the checkpoint write whenever a results write occurs at all:
the kanji and vocabulary drivers always write results then checkpoint,
and the radicals driver does the same for levels with at least one
record, while for a zero-record level it writes only the checkpoint. -/
theorem results_before_checkpoint_amended {R : Type} (env : DriverEnv R)
    (st : DriverState R) (L : Nat) (rs : List R)
    (hh : st.halted = false) (hrf : env.resultsSaveFails L = false)
    (hcf : env.ckptSaveFails L = false) :
    (kanjiProcessLevel env.data env.ex L = .ok rs →
       (kanjiStep env st L).trace =
         st.trace ++ [WriteEvent.writeResults, WriteEvent.writeCheckpoint L]) ∧
    (vocabProcessLevel env.data env.ex L = .ok rs →
       (vocabStep env st L).trace =
         st.trace ++ [WriteEvent.writeResults, WriteEvent.writeCheckpoint L]) ∧
    (radicalsProcessLevel env.data env.ex L = .ok rs → rs ≠ [] →
       (radicalsStep env st L).trace =
         st.trace ++ [WriteEvent.writeResults, WriteEvent.writeCheckpoint L]) ∧
    (radicalsProcessLevel env.data env.ex L = .ok [] →
       (radicalsStep env st L).trace = st.trace ++ [WriteEvent.writeCheckpoint L]) := by
  refine ⟨fun h => ?_, fun h => ?_, fun h hne => ?_, fun h => ?_⟩
  · simp [kanjiStep, hh, h, hrf, hcf]
  · simp [vocabStep, hh, h, hrf, hcf, trySaveResults, trySaveCheckpoint]
  · have hempty : rs.isEmpty = false := by
      cases rs with
      | nil => exact absurd rfl hne
      | cons a as => rfl
    simp [radicalsStep, hh, h, hempty, hrf, hcf, trySaveResults, trySaveCheckpoint]
  · simp [radicalsStep, hh, h, hcf, trySaveCheckpoint, List.isEmpty]

/-- Witness for the amended C3 at a concrete one-item level: the kanji
step records the results write strictly before the checkpoint write. -/
theorem results_before_checkpoint_amended_witness :
    (kanjiStep envOneItem stEmptyN 1).trace =
      [WriteEvent.writeResults, WriteEvent.writeCheckpoint 1] :=
  (results_before_checkpoint_amended envOneItem stEmptyN 1 [0] rfl rfl rfl).1 rfl

/-- C4 counterexample.  The kanji checkpoint loader (kanji.py lines
70-81) catches only `json.JSONDecodeError` and `KeyError`, so on an
existing checkpoint file whose contents cannot be read (an I/O error
from `open`/read) it raises instead of returning nothing, and the run
crashes before resolving a start level. -/
theorem corrupt_checkpoint_counterexample :
    kanjiLoadCheckpoint CkptFile.ioUnreadable =
      Except.error ScrapeError.loadCheckpointIOError ∧
    kanjiResolveStart CkptFile.ioUnreadable 1 =
      Except.error ScrapeError.loadCheckpointIOError :=
  ⟨rfl, rfl⟩

/-- C4 amended.  A checkpoint file containing invalid JSON makes every
loader return nothing and the run start from the configured start
level; a file that cannot be read at all is likewise tolerated by the
radicals (and vocabulary) loader, but makes the kanji loader raise. -/
theorem corrupt_checkpoint_amended {R : Type} (env : DriverEnv R)
    (st : DriverState R) (s e : Nat) :
    kanjiLoadCheckpoint CkptFile.invalidJSON = .ok none ∧
    kanjiResolveStart CkptFile.invalidJSON s = .ok s ∧
    kanjiRun env CkptFile.invalidJSON st s e =
      .ok (kanjiRunFrom env st (levelRange s e)) ∧
    radicalsLoadCheckpoint CkptFile.invalidJSON = none ∧
    radicalsResolveStart CkptFile.invalidJSON s = s ∧
    radicalsRun env CkptFile.invalidJSON st s e =
      radicalsRunFrom env st (levelRange s e) ∧
    vocabLoadCheckpoint CkptFile.invalidJSON = none ∧
    radicalsLoadCheckpoint CkptFile.ioUnreadable = none ∧
    radicalsResolveStart CkptFile.ioUnreadable s = s ∧
    kanjiLoadCheckpoint CkptFile.ioUnreadable =
      .error ScrapeError.loadCheckpointIOError := by
  refine ⟨rfl, rfl, rfl, rfl, rfl, rfl, rfl, rfl, rfl, rfl⟩

/-- C5 counterexample.  The kanji driver has no `try/except` inside
`_save_results` / `_save_checkpoint` (kanji.py lines 63-68 and 83-86),
so a raising results write is caught by the run loop's `except` clause
and the run halts via `sys.exit(1)` — at this concrete level the
processing succeeded and only the save failed, yet the run halts,
falsifying the claim that save failures never halt any of the three
drivers. -/
theorem save_failure_counterexample :
    kanjiProcessLevel envSaveFail.data envSaveFail.ex 1 = .ok [] ∧
    envSaveFail.resultsSaveFails 1 = true ∧
    (kanjiStep envSaveFail stEmptyN 1).halted = true :=
  ⟨rfl, rfl, rfl⟩

/-- C5 amended.  A failing results or checkpoint write is swallowed
(logged only) by the radicals and vocabulary drivers, whose level step
completes without halting, while in the kanji driver any failing save —
a raising results write, or a raising checkpoint write after a
successful results write — propagates and halts the run. -/
theorem save_failure_amended {R : Type} (env : DriverEnv R) (st : DriverState R)
    (L : Nat) (rs : List R) (hh : st.halted = false) :
    (radicalsProcessLevel env.data env.ex L = .ok rs →
       (radicalsStep env st L).halted = false) ∧
    (vocabProcessLevel env.data env.ex L = .ok rs →
       (vocabStep env st L).halted = false) ∧
    (kanjiProcessLevel env.data env.ex L = .ok rs →
       env.resultsSaveFails L = true → (kanjiStep env st L).halted = true) ∧
    (kanjiProcessLevel env.data env.ex L = .ok rs →
       env.resultsSaveFails L = false → env.ckptSaveFails L = true →
       (kanjiStep env st L).halted = true) := by
  refine ⟨fun h => ?_, fun h => ?_, fun h hsf => ?_, fun h hrf hcf => ?_⟩
  · by_cases hempty : rs.isEmpty <;>
      by_cases h1 : env.resultsSaveFails L <;>
      by_cases h2 : env.ckptSaveFails L <;>
        simp [radicalsStep, hh, h, hempty, h1, h2, trySaveResults, trySaveCheckpoint]
  · by_cases h1 : env.resultsSaveFails L <;>
      by_cases h2 : env.ckptSaveFails L <;>
        simp [vocabStep, hh, h, h1, h2, trySaveResults, trySaveCheckpoint]
  · simp [kanjiStep, hh, h, hsf]
  · simp [kanjiStep, hh, h, hrf, hcf]

/-- Witness for the amended C5: with every results write failing, the
radicals and vocabulary steps do not halt while the kanji step does;
the kanji step also halts when only the checkpoint write fails. -/
theorem save_failure_amended_witness :
    (radicalsStep envSaveFail stEmptyN 1).halted = false ∧
    (vocabStep envSaveFail stEmptyN 1).halted = false ∧
    (kanjiStep envSaveFail stEmptyN 1).halted = true ∧
    (kanjiStep envCkptSaveFail stEmptyN 1).halted = true :=
  ⟨(save_failure_amended envSaveFail stEmptyN 1 [] rfl).1 rfl,
   (save_failure_amended envSaveFail stEmptyN 1 [] rfl).2.1 rfl,
   (save_failure_amended envSaveFail stEmptyN 1 [] rfl).2.2.1 rfl rfl,
   (save_failure_amended envCkptSaveFail stEmptyN 1 [] rfl).2.2.2 rfl rfl rfl⟩

/-- When no block yields a usable mnemonic, `extract_mnemonic` raises
the missing-content error (radicals_scraper.py line 138). -/
theorem extractMnemonic_error (blocks : List RadMnBlock)
    (h : noRadMnemonic blocks = true) :
    extractMnemonic blocks = .error (.missingRequiredContent "mnemonic") := by
  induction blocks with
  | nil => rfl
  | cons b rest ih =>
    have hb : blockNoMnemonic b = true ∧ noRadMnemonic rest = true := by
      have h2 := h
      rw [noRadMnemonic, List.all_cons, Bool.and_eq_true] at h2
      exact h2
    by_cases hc : containsSub b.subtitleText "Mnemonic" = true
    · cases hst : b.sectionTexts with
      | none => simp [extractMnemonic, hc, hst, ih hb.2]
      | some ps =>
        have hps : radMnemonicText ps = "" := by
          have hbb := hb.1
          unfold blockNoMnemonic at hbb
          rw [hst, hc] at hbb
          simpa using hbb
        simp [extractMnemonic, hc, hst, hps, ih hb.2]
    · have hc2 : containsSub b.subtitleText "Mnemonic" = false := by
        simpa using hc
      simp [extractMnemonic, hc2, ih hb.2]

/-- A mnemonic returned by `extract_mnemonic` is never the empty string
(it is only returned after a non-emptiness check,
radicals_scraper.py line 134). -/
theorem extractMnemonic_ok_ne (blocks : List RadMnBlock) (s : String)
    (h : extractMnemonic blocks = .ok s) : s ≠ "" := by
  induction blocks with
  | nil => simp [extractMnemonic] at h
  | cons b rest ih =>
    by_cases hc : containsSub b.subtitleText "Mnemonic" = true
    · cases hst : b.sectionTexts with
      | none =>
        rw [extractMnemonic, if_pos hc, hst] at h
        exact ih h
      | some ps =>
        rw [extractMnemonic, if_pos hc, hst] at h
        by_cases hne : radMnemonicText ps ≠ ""
        · simp [hne] at h
          exact h ▸ hne
        · have heq : radMnemonicText ps = "" := by simpa using hne
          simp [heq] at h
          exact ih h
    · have hc2 : containsSub b.subtitleText "Mnemonic" = false := by
        simpa using hc
      rw [extractMnemonic, hc2] at h
      simp at h
      exact ih h

/-- C6.  The radical mnemonic is mandatory (radicals_scraper.py lines
114-138 and 152-177): on a fetched page with no usable mnemonic, item
extraction fails with the missing-content error; a returned record
always carries a non-empty mnemonic; and such a failing item makes the
whole in-progress level processing fail. -/
theorem radical_mnemonic_required (fetch : String → Except ScrapeError RadicalPage)
    (item : Item) (page : RadicalPage) (hf : fetch item.url = .ok page) :
    (noRadMnemonic page.mnemonicBlocks = true →
       extractRadicalData fetch item = .error (.missingRequiredContent "mnemonic")) ∧
    (∀ rec, extractRadicalData fetch item = .ok rec → rec.mnemonic ≠ "") ∧
    (noRadMnemonic page.mnemonicBlocks = true →
       ∀ (data : List (Nat × List Item)) (L : Nat) (good rest : List Item),
         lookupLevel data L = some (good ++ item :: rest) →
         (∀ i ∈ good, exceptOk (extractRadicalData fetch i) = true) →
         radicalsProcessLevel data (extractRadicalData fetch) L =
           .error (.missingRequiredContent "mnemonic")) := by
  have hfail : noRadMnemonic page.mnemonicBlocks = true →
      extractRadicalData fetch item = .error (.missingRequiredContent "mnemonic") := by
    intro hno
    simp [extractRadicalData, hf, extractMnemonic_error page.mnemonicBlocks hno]
  refine ⟨hfail, fun rec hok => ?_, fun hno data L good rest hlook hgood => ?_⟩
  · cases hm : extractMnemonic page.mnemonicBlocks with
    | error e =>
      simp [extractRadicalData, hf, hm] at hok
    | ok s =>
      simp [extractRadicalData, hf, hm] at hok
      have hms : rec.mnemonic = s := by rw [← hok]
      rw [hms]
      exact extractMnemonic_ok_ne page.mnemonicBlocks s hm
  · have hempty : (good ++ item :: rest).isEmpty = false := by
      cases good <;> rfl
    simp only [radicalsProcessLevel, hlook, hempty, Bool.false_eq_true, if_false]
    exact processItems_error (extractRadicalData fetch) good item rest
      (.missingRequiredContent "mnemonic") hgood (hfail hno)

/-- Witness for C6: a concrete page whose only Mnemonic block strips to
whitespace makes radical extraction fail with the missing-content
error. -/
theorem radical_mnemonic_required_witness :
    extractRadicalData radFetchNoMn radItemFx =
      .error (.missingRequiredContent "mnemonic") :=
  (radical_mnemonic_required radFetchNoMn radItemFx radPageNoMn rfl).1 (by decide)

/-- C7 counterexample.  A kanji mnemonic block with non-empty content
but no ancestor `section.subject-section` carries no classification
signal at all, and `extract_mnemonics` (kanji.py lines 292-307) drops
its content instead of classifying it as the meaning variant: the
extracted pair is empty in both slots. -/
theorem classification_fallback_counterexample :
    extractMnemonics [orphanMnBlock] = ⟨"", ""⟩ ∧
    mnBlockHtml orphanMnBlock = "lorem ipsum" ∧
    orphanMnBlock.parentSectionClasses = none := by
  refine ⟨rfl, ?_, rfl⟩
  decide

/-- C7 amended.  The deterministic meaning-fallback exists only in two
branches: a kanji block whose ancestor section exists but lacks the
reading marker goes to the meaning slot, and a vocabulary block with no
preceding `h2` at all goes to the meaning slot when that slot is still
empty.  A kanji block with no ancestor section, and a vocabulary block
whose preceding `h2` carries no recognized keyword, are silently
dropped. -/
theorem classification_fallback_amended (acc : Mnemonics) (b : MnBlock)
    (acc2 : Explanations) (v : ExplBlock) (h2txt : String) :
    (containsSub (strTrim b.subtitleText) "Mnemonic" = true →
       b.hasSubsection = true → b.parentSectionClasses = none →
       mnBlockStep acc b = acc) ∧
    (∀ classes, containsSub (strTrim b.subtitleText) "Mnemonic" = true →
       b.hasSubsection = true → b.parentSectionClasses = some classes →
       classes.contains "subject-section--reading" = false →
       mnBlockStep acc b = { acc with meaning := mnBlockHtml b }) ∧
    (containsSub v.headingText "Explanation" = true → v.hasSection = true →
       v.prevH2 = none → acc2.meaning = "" →
       explStep acc2 v = { acc2 with meaning := explBlockText v }) ∧
    (containsSub v.headingText "Explanation" = true → v.hasSection = true →
       v.prevH2 = some h2txt →
       containsSub (strLower (strTrim h2txt)) "meaning" = false →
       containsSub (strLower (strTrim h2txt)) "word type" = false →
       containsSub (strLower (strTrim h2txt)) "reading" = false →
       explStep acc2 v = acc2) := by
  refine ⟨fun hm hs hp => ?_, fun classes hm hs hp hcl => ?_,
          fun he hs hp hmean => ?_, fun he hs hp hk1 hk2 hk3 => ?_⟩
  · simp [mnBlockStep, hm, hs, hp]
  · have hcl2 : "subject-section--reading" ∉ classes := by simpa using hcl
    simp [mnBlockStep, hm, hs, hp, hcl2]
  · simp [explStep, he, hs, hp, hmean]
  · simp [explStep, he, hs, hp, hk1, hk2, hk3]

/-- Witness for the amended C7: a concrete block whose ancestor section
has an empty class list is stored in the meaning slot. -/
theorem classification_fallback_amended_witness :
    mnBlockStep ⟨"", ""⟩ unmarkedMnBlock =
      { meaning := mnBlockHtml unmarkedMnBlock, reading := "" } :=
  (classification_fallback_amended ⟨"", ""⟩ unmarkedMnBlock ⟨"", ""⟩
      ⟨"", false, [], none⟩ "").2.1 [] (by decide) rfl rfl rfl

/-- C8.  Readings-string parsing in the kanji extractor (kanji.py lines
147-155): the full-width comma is normalized before the comma split,
parts are stripped, and empty parts and the case-insensitive literal
`None` are filtered out — so `"あ, None, い"` parses to `["あ", "い"]`,
`"None"` parses to `[]`, `"あ、い、う"` parses exactly like
`"あ, い, う"`, and a reading div carrying `"あ, None, い"` yields the
same two readings through `extract_readings`. -/
theorem readings_parsing_normalization :
    parseReadingItems "あ, None, い" = ["あ", "い"] ∧
    parseReadingItems "None" = [] ∧
    parseReadingItems "あ、い、う" = parseReadingItems "あ, い, う" ∧
    extractReadings (some [⟨some "Onyomi", some "あ, None, い"⟩]) =
      ⟨["あ", "い"], [], []⟩ := by
  refine ⟨?_, ?_, ?_, ?_⟩ <;> decide

/-- C9.  Empty-level handling in the radicals driver
(radicals_scraper.py lines 179-209 and 231-254): a level whose
configured item list is empty is processed to an empty record list
without any error, and the step still writes the checkpoint recording
that level as completed. -/
theorem radicals_empty_level_checkpoint {R : Type} (env : DriverEnv R)
    (st : DriverState R) (L : Nat)
    (hdata : lookupLevel env.data L = some [])
    (hh : st.halted = false) (hcf : env.ckptSaveFails L = false) :
    radicalsProcessLevel env.data env.ex L = .ok [] ∧
    (radicalsStep env st L).halted = false ∧
    (radicalsStep env st L).checkpoint = some L ∧
    WriteEvent.writeCheckpoint L ∈ (radicalsStep env st L).trace := by
  have hp : radicalsProcessLevel env.data env.ex L = .ok ([] : List R) := by
    simp [radicalsProcessLevel, hdata]
  refine ⟨hp, ?_, ?_, ?_⟩ <;>
    simp [radicalsStep, hh, hp, trySaveCheckpoint, hcf]

/-- Witness for C9 at the concrete empty level 1. -/
theorem radicals_empty_level_checkpoint_witness :
    radicalsProcessLevel envEmptyLevel.data envEmptyLevel.ex 1 = .ok [] ∧
    (radicalsStep envEmptyLevel stEmptyN 1).checkpoint = some 1 :=
  ⟨(radicals_empty_level_checkpoint envEmptyLevel stEmptyN 1 rfl rfl rfl).1,
   (radicals_empty_level_checkpoint envEmptyLevel stEmptyN 1 rfl rfl rfl).2.2.1⟩

/-- C10.  The radicals ResultsStore never maps a level to an empty list
(radicals_scraper.py lines 236-250): each level step preserves the
no-empty-entries invariant, and a level processed to zero records adds
no entry, performs no results write, and still saves the checkpoint. -/
theorem radicals_no_empty_level_entries {R : Type} (env : DriverEnv R)
    (st : DriverState R) (L : Nat)
    (hinv : ∀ p ∈ st.results, p.2 ≠ ([] : List R)) :
    (∀ p ∈ (radicalsStep env st L).results, p.2 ≠ ([] : List R)) ∧
    (radicalsProcessLevel env.data env.ex L = .ok ([] : List R) →
       st.halted = false →
       (radicalsStep env st L).results = st.results ∧
       (env.ckptSaveFails L = false →
          (radicalsStep env st L).trace =
            st.trace ++ [WriteEvent.writeCheckpoint L] ∧
          (radicalsStep env st L).checkpoint = some L)) := by
  constructor
  · by_cases hh : st.halted
    · rw [show radicalsStep env st L = st by simp [radicalsStep, hh]]
      exact hinv
    · have hh2 : st.halted = false := by simpa using hh
      cases hp : radicalsProcessLevel env.data env.ex L with
      | error e =>
        simp only [radicalsStep, hh2, Bool.false_eq_true, if_false, hp]
        exact hinv
      | ok rs =>
        cases rs with
        | nil =>
          by_cases hc : env.ckptSaveFails L <;>
            simp only [radicalsStep, hh2, Bool.false_eq_true, if_false, hp,
              List.isEmpty_nil, if_true, trySaveCheckpoint, hc] <;>
            exact hinv
        | cons r rtail =>
          have hne : (r :: rtail) ≠ ([] : List R) := by simp
          have hins := insertLevel_forall (fun v => v ≠ ([] : List R))
            st.results L (r :: rtail) hinv hne
          by_cases h1 : env.resultsSaveFails L <;>
            by_cases hc : env.ckptSaveFails L <;>
              simp only [radicalsStep, hh2, Bool.false_eq_true, if_false, hp,
                List.isEmpty_cons, trySaveResults, trySaveCheckpoint, h1, hc,
                if_true] <;>
              exact hins
  · intro hp hh
    constructor
    · by_cases hc : env.ckptSaveFails L <;>
        simp [radicalsStep, hh, hp, trySaveCheckpoint, hc]
    · intro hc
      constructor <;> simp [radicalsStep, hh, hp, trySaveCheckpoint, hc]

/-- Witness for C10 at the concrete empty level 1 starting from an
empty store. -/
theorem radicals_no_empty_level_entries_witness :
    (radicalsStep envEmptyLevel stEmptyN 1).results = stEmptyN.results ∧
    (radicalsStep envEmptyLevel stEmptyN 1).trace =
      [WriteEvent.writeCheckpoint 1] :=
  ⟨((radicals_no_empty_level_entries envEmptyLevel stEmptyN 1 (by simp [stEmptyN])).2
      rfl rfl).1,
   (((radicals_no_empty_level_entries envEmptyLevel stEmptyN 1 (by simp [stEmptyN])).2
      rfl rfl).2 rfl).1⟩
